import Mathlib

/-!
Shallow embedding of the smart-classroom controller:
app/main.py, app/rssi_subscriber.py and app/web_server.py.

Modelling conventions.
Python floats are modelled as rationals; values of time.time are rationals;
dictionaries keyed by topic strings are modelled as functions from String to
Option; a sensor read that raises an exception is modelled as the none case of
an Option input; the MQTT transport result of client.publish is an abstract
Boolean input (success or failure).
-/

namespace SmartClassroom

/-- Module constant BRIGHTNESS_LOW of app/main.py. -/
def BRIGHTNESS_LOW : ℚ := 80

/-- Module constant BRIGHTNESS_HIGH of app/main.py. -/
def BRIGHTNESS_HIGH : ℚ := 180

/-- Module constant VOLUME_HIGH_DB of app/main.py. -/
def VOLUME_HIGH_DB : ℚ := -20

/-- Module constant VOLUME_LOW_DB of app/main.py. -/
def VOLUME_LOW_DB : ℚ := -40

/-- Module constant MIN_CMD_INTERVAL_SEC of app/main.py. -/
def MIN_CMD_INTERVAL_SEC : ℚ := 5

/-- Module constant HISTORY_LENGTH of app/main.py. -/
def HISTORY_LENGTH : ℕ := 10

/-- Module constant MAX_LOGS of app/web_server.py. -/
def MAX_LOGS : ℕ := 50

/-- Module constant MQTT_TOPIC_LIGHT of app/main.py. -/
def MQTT_TOPIC_LIGHT : String := "smartclassroom/light_cmd"

/-- Module constant MQTT_TOPIC_SPEAKER of app/main.py. -/
def MQTT_TOPIC_SPEAKER : String := "smartclassroom/speaker_cmd"

/-- The last k elements of a list, in order. This is the mathematical
description of both bounded buffers of the program (the sensor history deques
and the web-server log buffer). -/
def lastN (k : ℕ) (l : List α) : List α := l.drop (l.length - k)

theorem lastN_length (k : ℕ) (l : List α) : (lastN k l).length = min k l.length := by
  simp [lastN]
  omega

theorem lastN_eq_self {k : ℕ} {l : List α} (h : l.length ≤ k) : lastN k l = l := by
  simp [lastN, Nat.sub_eq_zero_of_le h]

theorem lastN_eq_reverse_take (k : ℕ) (l : List α) :
    lastN k l = (l.reverse.take k).reverse :=
  List.rtake_eq_reverse_take_reverse l k

theorem lastN_append_lastN (k : ℕ) (l xs : List α) :
    lastN k (lastN k l ++ xs) = lastN k (l ++ xs) := by
  rw [lastN_eq_reverse_take k (lastN k l ++ xs), lastN_eq_reverse_take k (l ++ xs),
    lastN_eq_reverse_take k l]
  rw [List.reverse_append, List.reverse_append, List.reverse_reverse]
  rw [List.take_append_eq_append_take, List.take_append_eq_append_take]
  rw [List.take_take, Nat.min_eq_left (Nat.sub_le k _)]

/-- Any step function that appends one element and keeps the last k elements,
iterated from a short enough start, keeps the last k elements of the whole
input sequence. -/
theorem foldl_window (k : ℕ) (f : List α → α → List α)
    (hf : ∀ h x, h.length ≤ k → f h x = lastN k (h ++ [x])) :
    ∀ (xs : List α) (h : List α), h.length ≤ k →
      xs.foldl f h = lastN k (h ++ xs) := by
  intro xs
  induction xs with
  | nil =>
    intro h hh
    simp [lastN_eq_self hh]
  | cons x xs ih =>
    intro h hh
    rw [List.foldl_cons, hf h x hh, ih _ (by rw [lastN_length]; omega),
      lastN_append_lastN]
    simp

/-- Embeds moving_average of app/main.py: the mean of the current history, or
none when the history is empty. -/
def moving_average (history : List ℚ) : Option ℚ :=
  if history = [] then none
  else some (history.sum / history.length)

/-- Embeds appending one sample to a collections.deque with
maxlen = HISTORY_LENGTH (brightness_history.append and volume_history.append
in app/main.py): when full, the oldest element is evicted. -/
def pushHist (history : List ℚ) (x : ℚ) : List ℚ :=
  if history.length < HISTORY_LENGTH then history ++ [x]
  else (history ++ [x]).drop 1

/-- Embeds set_log of app/web_server.py: append, then keep only the last
MAX_LOGS entries. -/
def set_log (log_history : List String) (msg : String) : List String :=
  let h := log_history ++ [msg]
  if MAX_LOGS < h.length then h.drop (h.length - MAX_LOGS) else h

theorem pushHist_window (h : List ℚ) (x : ℚ) (hh : h.length ≤ HISTORY_LENGTH) :
    pushHist h x = lastN HISTORY_LENGTH (h ++ [x]) := by
  unfold pushHist lastN
  by_cases hlt : h.length < HISTORY_LENGTH
  · rw [if_pos hlt]
    have h0 : (h ++ [x]).length - HISTORY_LENGTH = 0 := by simp; omega
    rw [h0, List.drop_zero]
  · rw [if_neg hlt]
    congr 1
    simp
    omega

theorem set_log_window (h : List String) (m : String) (_hh : h.length ≤ MAX_LOGS) :
    set_log h m = lastN MAX_LOGS (h ++ [m]) := by
  unfold set_log lastN
  by_cases hgt : MAX_LOGS < (h ++ [m]).length
  · rw [if_pos hgt]
  · rw [if_neg hgt]
    have h0 : (h ++ [m]).length - MAX_LOGS = 0 := by omega
    rw [h0, List.drop_zero]

/-- C1: pushing a sequence of samples through a tracker of capacity
HISTORY_LENGTH = 10 and asking moving_average yields the arithmetic mean of the
last min(length, 10) pushed values; none for the empty sequence (the if branch
at xs = []), and the value itself after pushing exactly one value. -/
theorem C1_moving_average_window (xs : List ℚ) :
    moving_average (xs.foldl pushHist []) =
      (if xs = [] then none
       else some ((lastN HISTORY_LENGTH xs).sum / (lastN HISTORY_LENGTH xs).length))
    ∧ (lastN HISTORY_LENGTH xs).length = min HISTORY_LENGTH xs.length
    ∧ (∀ v : ℚ, moving_average ([v].foldl pushHist []) = some v) := by
  have hfold : xs.foldl pushHist [] = lastN HISTORY_LENGTH xs := by
    have h := foldl_window HISTORY_LENGTH pushHist pushHist_window xs [] (by simp)
    simpa using h
  refine ⟨?_, lastN_length _ _, ?_⟩
  · rw [hfold, moving_average]
    by_cases hxs : xs = []
    · subst hxs
      simp [lastN]
    · have hne : lastN HISTORY_LENGTH xs ≠ [] := by
        intro h0
        have hlen := lastN_length HISTORY_LENGTH xs
        rw [h0] at hlen
        simp [HISTORY_LENGTH] at hlen
        exact hxs (List.length_eq_zero.mp (by omega))
      rw [if_neg hne, if_neg hxs]
  · intro v
    norm_num [moving_average, pushHist, HISTORY_LENGTH]

/-- C9: after any sequence of appends through set_log starting from the empty
buffer, the shared log buffer holds exactly the last min(total, MAX_LOGS = 50)
messages in append order, so its length never exceeds 50 and the oldest
entries are the ones dropped. -/
theorem C9_log_buffer (ms : List String) :
    ms.foldl set_log [] = lastN MAX_LOGS ms
    ∧ (ms.foldl set_log []).length = min MAX_LOGS ms.length := by
  have hfold : ms.foldl set_log [] = lastN MAX_LOGS ms := by
    have h := foldl_window MAX_LOGS set_log set_log_window ms [] (by simp)
    simpa using h
  exact ⟨hfold, by rw [hfold, lastN_length]⟩

/-- The throttle ledger last_sent_time of app/main.py: a dict from topic to
the time of the last successful publish, modelled as a partial map. -/
def Ledger : Type := String → Option ℚ

/-- The empty ledger (last_cmd_time = \x7b\x7d at start of main). -/
def emptyLedger : Ledger := fun _ => none

/-- Outcome of one maybe_publish call: the ledger afterwards, whether
client.publish was attempted (the throttle check passed), and whether the
transport reported success (rc == MQTT_ERR_SUCCESS). -/
structure PublishResult where
  ledger : Ledger
  attempted : Bool
  published : Bool

/-- Embeds maybe_publish of app/main.py. The dict read
last_sent_time.get(topic, 0.0) is the getD, the early return on
now - last < MIN_CMD_INTERVAL_SEC is the first branch, and the dict write
last_sent_time[topic] = now happens only on transport success. The transport
outcome of client.publish is the Boolean input pubOk. -/
def maybe_publish (last_sent_time : Ledger) (topic : String) (_payload : String)
    (now : ℚ) (pubOk : Bool) : PublishResult :=
  let last := (last_sent_time topic).getD 0
  if now - last < MIN_CMD_INTERVAL_SEC then
    ⟨last_sent_time, false, false⟩
  else if pubOk then
    ⟨fun t => if t = topic then some now else last_sent_time t, true, true⟩
  else
    ⟨last_sent_time, true, false⟩

/-- The threshold policy shape shared by the two inline if/elif blocks of the
main loop of app/main.py: below the low bound emit the raise payload, above
the high bound emit the lower payload, otherwise nothing. -/
def thresholdPolicy (low high v : ℚ) : Option String :=
  if v < low then some "UP"
  else if v > high then some "DOWN"
  else none

/-- Embeds the brightness branch of the main loop (avg_brightness against
BRIGHTNESS_LOW then BRIGHTNESS_HIGH). -/
def lightDecision (v : ℚ) : Option String :=
  if v < BRIGHTNESS_LOW then some "UP"
  else if v > BRIGHTNESS_HIGH then some "DOWN"
  else none

/-- Embeds the volume branch of the main loop (avg_volume_db against
VOLUME_HIGH_DB first, then VOLUME_LOW_DB, as the source orders the checks). -/
def speakerDecision (v : ℚ) : Option String :=
  if v > VOLUME_HIGH_DB then some "DOWN"
  else if v < VOLUME_LOW_DB then some "UP"
  else none

/-- C2: the threshold policy emits the raise payload UP exactly when the value
is below the low bound, the lower payload DOWN exactly when it is above the
high bound, and nothing in between; a value exactly equal to either bound
yields no command; and the two configured branches of app/main.py are
instances of this one deterministic function at the brightness bounds
(80, 180) and the volume bounds (-40, -20). -/
theorem C2_threshold_policy (v low high : ℚ) (hlh : low ≤ high) :
    (thresholdPolicy low high v = some "UP" ↔ v < low)
    ∧ (thresholdPolicy low high v = some "DOWN" ↔ high < v)
    ∧ (thresholdPolicy low high v = none ↔ low ≤ v ∧ v ≤ high)
    ∧ (v = low ∨ v = high → thresholdPolicy low high v = none)
    ∧ lightDecision v = thresholdPolicy BRIGHTNESS_LOW BRIGHTNESS_HIGH v
    ∧ speakerDecision v = thresholdPolicy VOLUME_LOW_DB VOLUME_HIGH_DB v := by
  refine ⟨?_, ?_, ?_, ?_, ?_, ?_⟩
  · unfold thresholdPolicy
    split
    · simp_all
    · split <;> simp_all
  · unfold thresholdPolicy
    split
    · constructor
      · intro h
        simp at h
      · intro h
        linarith
    · split <;> simp_all
  · unfold thresholdPolicy
    split
    · constructor
      · intro h
        simp at h
      · intro h
        linarith
    · split
      · constructor
        · intro h
          simp at h
        · intro h
          linarith
      · simp_all
  · rintro (rfl | rfl) <;> simp [thresholdPolicy] <;> linarith
  · rfl
  · unfold speakerDecision thresholdPolicy VOLUME_LOW_DB VOLUME_HIGH_DB
    by_cases h1 : v > (-20 : ℚ) <;> by_cases h2 : v < (-40 : ℚ) <;>
      first
      | (simp [h1, h2]; linarith)
      | simp [h1, h2]

/-- Witness for C2 at the brightness bounds and the boundary value 80. -/
theorem C2_threshold_policy_witness :
    (80 : ℚ) ≤ 180 ∧ thresholdPolicy 80 180 80 = none :=
  ⟨by norm_num,
   (C2_threshold_policy 80 80 180 (by norm_num)).2.2.2.1 (Or.inl rfl)⟩

/-- C3: a maybe_publish call is suppressed (ledger unchanged, publish not
attempted, nothing sent) exactly when now minus the last-sent time recorded
for the destination (0.0 when absent, as the source defaults) is strictly
below MIN_CMD_INTERVAL_SEC = 5; when the window has elapsed and the transport
succeeds, the ledger entry for the destination becomes now. Concretely, from
an empty ledger at any timestamp t0 with at least 5: the first emit succeeds,
an emit at t0 + 4.9 is suppressed with the ledger unchanged, and an emit at
t0 + 5.1 succeeds again. -/
theorem C3_throttle (l : Ledger) (topic payload : String) (now t0 : ℚ)
    (pubOk : Bool) (h5 : MIN_CMD_INTERVAL_SEC ≤ t0) :
    (now - (l topic).getD 0 < MIN_CMD_INTERVAL_SEC →
      maybe_publish l topic payload now pubOk = ⟨l, false, false⟩)
    ∧ (¬ now - (l topic).getD 0 < MIN_CMD_INTERVAL_SEC →
      (maybe_publish l topic payload now pubOk).attempted = true)
    ∧ (¬ now - (l topic).getD 0 < MIN_CMD_INTERVAL_SEC → pubOk = true →
      (maybe_publish l topic payload now pubOk).published = true
      ∧ (maybe_publish l topic payload now pubOk).ledger topic = some now)
    ∧ ((maybe_publish emptyLedger topic payload t0 true).published = true)
    ∧ (maybe_publish (maybe_publish emptyLedger topic payload t0 true).ledger
        topic payload (t0 + 49/10) true
        = ⟨(maybe_publish emptyLedger topic payload t0 true).ledger, false, false⟩)
    ∧ ((maybe_publish (maybe_publish emptyLedger topic payload t0 true).ledger
        topic payload (t0 + 51/10) true).published = true) := by
  have hn0 : ¬ t0 - ((emptyLedger topic).getD 0) < MIN_CMD_INTERVAL_SEC := by
    simp [emptyLedger]
    exact h5
  have h1 : maybe_publish emptyLedger topic payload t0 true =
      ⟨fun t => if t = topic then some t0 else emptyLedger t, true, true⟩ := by
    simp [maybe_publish, hn0]
  refine ⟨?_, ?_, ?_, ?_, ?_, ?_⟩
  · intro h
    simp [maybe_publish, h]
  · intro h
    cases pubOk <;> simp [maybe_publish, h]
  · intro h hok
    subst hok
    simp [maybe_publish, h]
  · rw [h1]
  · rw [h1]
    simp only [maybe_publish]
    norm_num [MIN_CMD_INTERVAL_SEC]
  · rw [h1]
    simp only [maybe_publish]
    norm_num [MIN_CMD_INTERVAL_SEC]

/-- Witness for C3: the concrete scenario at t0 = 1000 on the light topic. -/
theorem C3_throttle_witness :
    MIN_CMD_INTERVAL_SEC ≤ (1000 : ℚ)
    ∧ (maybe_publish emptyLedger MQTT_TOPIC_LIGHT "UP" 1000 true).published = true
    ∧ maybe_publish
        (maybe_publish emptyLedger MQTT_TOPIC_LIGHT "UP" 1000 true).ledger
        MQTT_TOPIC_LIGHT "UP" (1000 + 49/10) true
        = ⟨(maybe_publish emptyLedger MQTT_TOPIC_LIGHT "UP" 1000 true).ledger,
           false, false⟩
    ∧ (maybe_publish
        (maybe_publish emptyLedger MQTT_TOPIC_LIGHT "UP" 1000 true).ledger
        MQTT_TOPIC_LIGHT "UP" (1000 + 51/10) true).published = true := by
  have h := C3_throttle emptyLedger MQTT_TOPIC_LIGHT "UP" 1000 1000 true
    (by norm_num [MIN_CMD_INTERVAL_SEC])
  exact ⟨by norm_num [MIN_CMD_INTERVAL_SEC], h.2.2.2.1, h.2.2.2.2.1, h.2.2.2.2.2⟩

/-- C4: when the throttle window has elapsed and the transport reports
failure, the ledger is completely unchanged and the call published nothing, so
an immediately following attempt at the very same timestamp on the same
destination again passes the throttle check and, with a working transport,
publishes. -/
theorem C4_failure_keeps_ledger (l : Ledger) (topic payload : String) (now : ℚ)
    (h : ¬ now - (l topic).getD 0 < MIN_CMD_INTERVAL_SEC) :
    (maybe_publish l topic payload now false).ledger = l
    ∧ (maybe_publish l topic payload now false).attempted = true
    ∧ (maybe_publish l topic payload now false).published = false
    ∧ (maybe_publish (maybe_publish l topic payload now false).ledger
        topic payload now true).attempted = true
    ∧ (maybe_publish (maybe_publish l topic payload now false).ledger
        topic payload now true).published = true := by
  have h1 : maybe_publish l topic payload now false = ⟨l, true, false⟩ := by
    simp [maybe_publish, h]
  rw [h1]
  refine ⟨rfl, rfl, rfl, ?_, ?_⟩ <;> simp [maybe_publish, h]

/-- Witness for C4 on the light topic at time 1000 over the empty ledger. -/
theorem C4_failure_keeps_ledger_witness :
    (¬ (1000 : ℚ) - ((emptyLedger MQTT_TOPIC_LIGHT).getD 0) < MIN_CMD_INTERVAL_SEC)
    ∧ (maybe_publish emptyLedger MQTT_TOPIC_LIGHT "UP" 1000 false).ledger = emptyLedger
    ∧ (maybe_publish
        (maybe_publish emptyLedger MQTT_TOPIC_LIGHT "UP" 1000 false).ledger
        MQTT_TOPIC_LIGHT "UP" 1000 true).published = true := by
  have hn : ¬ (1000 : ℚ) - ((emptyLedger MQTT_TOPIC_LIGHT).getD 0) < MIN_CMD_INTERVAL_SEC := by
    norm_num [emptyLedger, MIN_CMD_INTERVAL_SEC]
  have h := C4_failure_keeps_ledger emptyLedger MQTT_TOPIC_LIGHT "UP" 1000 hn
  exact ⟨hn, h.1, h.2.2.2.2⟩

/-- C8: an emit attempt on one destination reads and writes only that
destination entry of the ledger: the entry of any other destination is
untouched, and whether an attempt on the other destination at the same
instant is throttled, published or recorded is the same as if the first
attempt had never happened; in particular, first-ever attempts on two
distinct destinations at the same instant both publish. -/
theorem C8_destination_independence (l : Ledger) (t1 t2 p1 p2 : String)
    (now : ℚ) (ok1 ok2 : Bool) (hne : t1 ≠ t2) (h5 : MIN_CMD_INTERVAL_SEC ≤ now) :
    ((maybe_publish l t1 p1 now ok1).ledger t2 = l t2)
    ∧ ((maybe_publish (maybe_publish l t1 p1 now ok1).ledger t2 p2 now ok2).attempted
        = (maybe_publish l t2 p2 now ok2).attempted)
    ∧ ((maybe_publish (maybe_publish l t1 p1 now ok1).ledger t2 p2 now ok2).published
        = (maybe_publish l t2 p2 now ok2).published)
    ∧ ((maybe_publish (maybe_publish l t1 p1 now ok1).ledger t2 p2 now ok2).ledger t2
        = (maybe_publish l t2 p2 now ok2).ledger t2)
    ∧ ((maybe_publish emptyLedger t1 p1 now true).published = true)
    ∧ ((maybe_publish (maybe_publish emptyLedger t1 p1 now true).ledger
        t2 p2 now true).published = true) := by
  have hfr : ∀ (la : Ledger) (p : String) (ok : Bool),
      (maybe_publish la t1 p now ok).ledger t2 = la t2 := by
    intro la p ok
    simp only [maybe_publish]
    split_ifs <;> simp [Ne.symm hne]
  have key : ∀ (p : String) (ok : Bool) (la lb : Ledger), la t2 = lb t2 →
      (maybe_publish la t2 p now ok).attempted = (maybe_publish lb t2 p now ok).attempted
      ∧ (maybe_publish la t2 p now ok).published = (maybe_publish lb t2 p now ok).published
      ∧ (maybe_publish la t2 p now ok).ledger t2 = (maybe_publish lb t2 p now ok).ledger t2 := by
    intro p ok la lb hab
    simp only [maybe_publish, hab]
    split_ifs <;> simp [hab]
  have hk := key p2 ok2 (maybe_publish l t1 p1 now ok1).ledger l (hfr l p1 ok1)
  have hn0 : ∀ t : String, ¬ now - ((emptyLedger t).getD 0) < MIN_CMD_INTERVAL_SEC := by
    intro t
    simp [emptyLedger]
    exact h5
  have hfirst : (maybe_publish emptyLedger t1 p1 now true).published = true := by
    simp [maybe_publish, hn0 t1]
  have hsecond :
      (maybe_publish (maybe_publish emptyLedger t1 p1 now true).ledger
        t2 p2 now true).published = true := by
    have hk2 := key p2 true (maybe_publish emptyLedger t1 p1 now true).ledger
      emptyLedger (hfr emptyLedger p1 true)
    rw [hk2.2.1]
    simp [maybe_publish, hn0 t2]
  exact ⟨hfr l p1 ok1, hk.1, hk.2.1, hk.2.2, hfirst, hsecond⟩

/-- Witness for C8: light and speaker, both first-ever at time 1000. -/
theorem C8_destination_independence_witness :
    MQTT_TOPIC_LIGHT ≠ MQTT_TOPIC_SPEAKER
    ∧ MIN_CMD_INTERVAL_SEC ≤ (1000 : ℚ)
    ∧ (maybe_publish emptyLedger MQTT_TOPIC_LIGHT "UP" 1000 true).published = true
    ∧ (maybe_publish (maybe_publish emptyLedger MQTT_TOPIC_LIGHT "UP" 1000 true).ledger
        MQTT_TOPIC_SPEAKER "DOWN" 1000 true).published = true := by
  have hne : MQTT_TOPIC_LIGHT ≠ MQTT_TOPIC_SPEAKER := by decide
  have h5 : MIN_CMD_INTERVAL_SEC ≤ (1000 : ℚ) := by norm_num [MIN_CMD_INTERVAL_SEC]
  have h := C8_destination_independence emptyLedger MQTT_TOPIC_LIGHT MQTT_TOPIC_SPEAKER
    "UP" "DOWN" 1000 true true hne h5
  exact ⟨hne, h5, h.2.2.2.2.1, h.2.2.2.2.2⟩

/-- JSON values as returned by json.loads in app/rssi_subscriber.py. -/
inductive JVal where
  | jnull : JVal
  | jbool : Bool → JVal
  | jnum : ℚ → JVal
  | jstr : String → JVal
  | jarr : List JVal → JVal
  | jobj : List (String × JVal) → JVal

/-- Natural number denoted by a string of decimal digits. -/
def digitsVal (cs : List Char) : ℕ :=
  cs.foldl (fun n c => 10 * n + (c.toNat - 48)) 0

/-- Models the Python built-in float on a string: an optional sign, then
decimal digits with at most one decimal point. Scientific notation and the
special words inf and nan never occur in the payloads of this repository and
are modelled as failures. -/
def strToFloat (s : String) : Option ℚ :=
  let cs := s.toList
  let signAndRest : ℚ × List Char :=
    match cs with
    | '-' :: r => (-1, r)
    | '+' :: r => (1, r)
    | r => (1, r)
  let sign := signAndRest.1
  let rest := signAndRest.2
  match rest.splitOn '.' with
  | [i] =>
    if i ≠ [] ∧ i.all Char.isDigit then some (sign * digitsVal i) else none
  | [i, f] =>
    if (i ++ f) ≠ [] ∧ (i ++ f).all Char.isDigit then
      some (sign * (digitsVal (i ++ f) / 10 ^ f.length))
    else none
  | _ => none

/-- Models the Python built-in float on the result of dict.get: a missing key
(none) or a JSON null is the Python None and raises TypeError; numbers and
Booleans convert; numeric strings parse; anything else raises. -/
def pyFloat : Option JVal → Option ℚ
  | some (JVal.jnum q) => some q
  | some (JVal.jbool b) => some (if b then 1 else 0)
  | some (JVal.jstr s) => strToFloat s
  | _ => none

/-- Models the Python built-in str on the result of dict.get. A missing key or
a JSON null is the Python None, whose str is the literal string None. The
formatting of numbers and containers is abstracted by the embedding and is
never reached by the payloads considered here. -/
def pyStr : Option JVal → String
  | none => "None"
  | some JVal.jnull => "None"
  | some (JVal.jbool b) => if b then "True" else "False"
  | some (JVal.jnum q) => toString q
  | some (JVal.jstr s) => s
  | some (JVal.jarr _) => "<list>"
  | some (JVal.jobj _) => "<dict>"

/-- The try block of RssiSubscriber._on_message of app/rssi_subscriber.py:
rssi = float(data.get("rssi")) then timestamp = str(data.get("timestamp")).
The argument is the json.loads result, none when json.loads raised; a
non-object result makes data.get raise AttributeError; any exception leaves
rssi as the initial None, modelled by the none result. -/
def parseRssi (parsed : Option JVal) : Option (ℚ × String) :=
  match parsed with
  | some (JVal.jobj kvs) =>
    match pyFloat (kvs.lookup "rssi") with
    | some q => some (q, pyStr (kvs.lookup "timestamp"))
    | none => none
  | _ => none

/-- The mutable per-subscriber snapshot of app/rssi_subscriber.py:
latest_rssi, latest_timestamp and last_raw_payload, all initially None. -/
structure Snapshot where
  latest_rssi : Option ℚ
  latest_timestamp : Option String
  last_raw_payload : Option String
deriving DecidableEq

/-- Embeds RssiSubscriber._on_message of app/rssi_subscriber.py: the decoded
payload string is stored into last_raw_payload unconditionally before the try
block runs; only when the parsed rssi is not None are latest_rssi and
latest_timestamp replaced. -/
def on_message (st : Snapshot) (payload_str : String) (parsed : Option JVal) :
    Snapshot :=
  let st1 : Snapshot := { st with last_raw_payload := some payload_str }
  match parseRssi parsed with
  | some (q, ts) => { st1 with latest_rssi := some q, latest_timestamp := some ts }
  | none => st1

/-- A populated snapshot used as a concrete starting state. -/
def rssiSnap0 : Snapshot :=
  ⟨some (-50), some "2024-12-31T23:59:59.000Z", some "old"⟩

/-- The well-formed RSSI payload of the spec scenario. -/
def rawGood : String :=
  "\x7b\"rssi\": -70, \"timestamp\": \"2025-01-01T00:00:00.000Z\"\x7d"

/-- The json.loads result of rawGood. -/
def parsedGood : Option JVal :=
  some (JVal.jobj
    [("rssi", JVal.jnum (-70)), ("timestamp", JVal.jstr "2025-01-01T00:00:00.000Z")])

/-- The malformed RSSI payload of the spec scenario. -/
def rawBad : String := "\x7b\"rssi\": \"oops\"\x7d"

/-- The json.loads result of rawBad: valid JSON, but float fails on oops. -/
def parsedBad : Option JVal := some (JVal.jobj [("rssi", JVal.jstr "oops")])

/-- A payload with a numeric rssi but no timestamp key. -/
def rawNoTs : String := "\x7b\"rssi\": -70\x7d"

/-- The json.loads result of rawNoTs. -/
def parsedNoTs : Option JVal := some (JVal.jobj [("rssi", JVal.jnum (-70))])

/-- C5 as stated is false: the good message replaces value and timestamp, and
the following malformed message indeed keeps latest_rssi and latest_timestamp,
but it does not leave the snapshot (the triple including last_raw_payload)
untouched, because last_raw_payload is overwritten before parsing. -/
theorem C5_counterexample :
    (on_message rssiSnap0 rawGood parsedGood).latest_rssi = some (-70)
    ∧ (on_message rssiSnap0 rawGood parsedGood).latest_timestamp
        = some "2025-01-01T00:00:00.000Z"
    ∧ (on_message (on_message rssiSnap0 rawGood parsedGood) rawBad parsedBad).latest_rssi
        = (on_message rssiSnap0 rawGood parsedGood).latest_rssi
    ∧ (on_message (on_message rssiSnap0 rawGood parsedGood) rawBad parsedBad).latest_timestamp
        = (on_message rssiSnap0 rawGood parsedGood).latest_timestamp
    ∧ on_message (on_message rssiSnap0 rawGood parsedGood) rawBad parsedBad
        ≠ on_message rssiSnap0 rawGood parsedGood := by
  decide

/-- C5 amended: a message whose payload parses with a numeric rssi field
replaces latest_rssi, latest_timestamp and last_raw_payload wholesale, while a
message that fails to parse leaves latest_rssi and latest_timestamp untouched;
last_raw_payload, however, is overwritten by every inbound message. -/
theorem C5_rssi_update (st : Snapshot) (raw : String) (parsed : Option JVal) :
    (parseRssi parsed = none →
      (on_message st raw parsed).latest_rssi = st.latest_rssi
      ∧ (on_message st raw parsed).latest_timestamp = st.latest_timestamp
      ∧ (on_message st raw parsed).last_raw_payload = some raw)
    ∧ (∀ q ts, parseRssi parsed = some (q, ts) →
      on_message st raw parsed = ⟨some q, some ts, some raw⟩) := by
  constructor
  · intro h
    simp [on_message, h]
  · intro q ts h
    simp [on_message, h]

/-- Witness for C5 amended at the two concrete messages of the scenario. -/
theorem C5_rssi_update_witness :
    ((on_message rssiSnap0 rawBad parsedBad).latest_rssi = rssiSnap0.latest_rssi
      ∧ (on_message rssiSnap0 rawBad parsedBad).last_raw_payload = some rawBad)
    ∧ on_message rssiSnap0 rawGood parsedGood
        = ⟨some (-70), some "2025-01-01T00:00:00.000Z", some rawGood⟩ := by
  have hbad : parseRssi parsedBad = none := by decide
  have hgood : parseRssi parsedGood = some (-70, "2025-01-01T00:00:00.000Z") := by
    decide
  have h1 := C5_rssi_update rssiSnap0 rawBad parsedBad
  have h2 := C5_rssi_update rssiSnap0 rawGood parsedGood
  exact ⟨⟨(h1.1 hbad).1, (h1.1 hbad).2.2⟩,
    h2.2 (-70) "2025-01-01T00:00:00.000Z" hgood⟩

/-- C10: every inbound message overwrites last_raw_payload with the decoded
payload, whether or not parsing succeeds; latest_rssi and latest_timestamp
change only on a successful float conversion of the rssi field; and a
successful parse of a payload without a timestamp key stores the literal
string None as the timestamp. -/
theorem C10_raw_payload_always_written (st : Snapshot) (raw : String)
    (parsed : Option JVal) :
    ((on_message st raw parsed).last_raw_payload = some raw)
    ∧ (parseRssi parsed = none →
      (on_message st raw parsed).latest_rssi = st.latest_rssi
      ∧ (on_message st raw parsed).latest_timestamp = st.latest_timestamp)
    ∧ (∀ kvs q, parsed = some (JVal.jobj kvs) →
      kvs.lookup "timestamp" = none →
      pyFloat (kvs.lookup "rssi") = some q →
      (on_message st raw parsed).latest_rssi = some q
      ∧ (on_message st raw parsed).latest_timestamp = some "None") := by
  refine ⟨?_, ?_, ?_⟩
  · unfold on_message
    cases h : parseRssi parsed with
    | none => rfl
    | some p => cases p with | mk q ts => rfl
  · intro h
    simp [on_message, h]
  · intro kvs q hp hts hq
    subst hp
    simp [on_message, parseRssi, hq, hts, pyStr]

/-- Witness for C10 at a malformed message and at a message without a
timestamp key. -/
theorem C10_raw_payload_always_written_witness :
    ((on_message rssiSnap0 rawBad parsedBad).last_raw_payload = some rawBad)
    ∧ ((on_message rssiSnap0 rawNoTs parsedNoTs).latest_rssi = some (-70)
      ∧ (on_message rssiSnap0 rawNoTs parsedNoTs).latest_timestamp = some "None") := by
  have h1 := C10_raw_payload_always_written rssiSnap0 rawBad parsedBad
  have h2 := C10_raw_payload_always_written rssiSnap0 rawNoTs parsedNoTs
  exact ⟨h1.1,
    h2.2.2 [("rssi", JVal.jnum (-70))] (-70) rfl rfl rfl⟩

/-- Rounding to tenths with ties to even, as the Python format spec .1f
rounds (the artifacts of binary floating point are outside the embedding). -/
def roundTenths (q : ℚ) : ℤ :=
  let t := q * 10
  let f := ⌊t⌋
  if t - f < 1/2 then f
  else if 1/2 < t - f then f + 1
  else if f % 2 = 0 then f else f + 1

/-- Models the f-string conversion with format spec .1f on a finite float. -/
def fmt1 (q : ℚ) : String :=
  let r := roundTenths q
  if r < 0 then "-" ++ toString ((-r) / 10) ++ "." ++ toString ((-r) % 10)
  else toString (r / 10) ++ "." ++ toString (r % 10)

/-- Formatting of the raw sensor reading slots of the status line: a failed
read leaves the value float nan, which the format spec .1f renders as the
string nan. -/
def fmtRawRead : Option ℚ → String
  | none => "nan"
  | some q => fmt1 q

/-- Formatting of the smoothed-value slots of the status line: the source
substitutes the string N/A when the value is None. -/
def fmtAvg : Option ℚ → String
  | none => "N/A"
  | some q => fmt1 q

/-- Embeds the msg construction of the main loop of app/main.py (the
timestamped status line handed to logging and set_log). -/
def statusLine (timestamp : String) (brightness avg_brightness : Option ℚ)
    (volume_db avg_volume_db : Option ℚ)
    (current_rssi : Option ℚ) (rssi_ts : Option String) : String :=
  timestamp ++ " | Brightness: current=" ++ fmtRawRead brightness
    ++ " avg=" ++ fmtAvg avg_brightness
    ++ " | Volume: current=" ++ fmtRawRead volume_db
    ++ " dB avg=" ++ fmtAvg avg_volume_db
    ++ " | RSSI: " ++ (match current_rssi with
        | some q => fmt1 q ++ " dBm"
        | none => "N/A")
    ++ " (ts=" ++ rssi_ts.getD "N/A" ++ ")"

/-- The loop-owned state of main in app/main.py: the two history deques and
the throttle ledger. -/
structure LoopState where
  brightness_history : List ℚ
  volume_history : List ℚ
  last_cmd_time : Ledger

/-- The external inputs of one loop iteration: the two sensor reads (none
models a raised exception), the RSSI snapshot fields as read from the
subscriber (none when absent or when no subscriber runs), the formatted
timestamp, the current time and the per-topic transport outcome. -/
structure TickInput where
  brightRead : Option ℚ
  volRead : Option ℚ
  rssiVal : Option ℚ
  rssiTs : Option String
  timestamp : String
  now : ℚ
  pubOk : String → Bool

/-- The observable outcome of one loop iteration. -/
structure TickResult where
  state : LoopState
  avg_brightness : Option ℚ
  avg_volume_db : Option ℚ
  msg : String
  cmds : List (String × String)
  emitted : List (String × String)

/-- One maybe_publish invocation of the command section, recording the call
(topic, payload) and, when the transport succeeded, the emission. -/
def emitCmd (l : Ledger) (topic payload : String) (now : ℚ) (ok : Bool) :
    Ledger × List (String × String) × List (String × String) :=
  let r := maybe_publish l topic payload now ok
  (r.ledger, [(topic, payload)], if r.published then [(topic, payload)] else [])

/-- Embeds the avg_brightness command block of the main loop. -/
def lightStep (l : Ledger) (avg_brightness : Option ℚ) (now : ℚ) (ok : Bool) :
    Ledger × List (String × String) × List (String × String) :=
  match avg_brightness with
  | none => (l, [], [])
  | some a =>
    if a < BRIGHTNESS_LOW then emitCmd l MQTT_TOPIC_LIGHT "UP" now ok
    else if a > BRIGHTNESS_HIGH then emitCmd l MQTT_TOPIC_LIGHT "DOWN" now ok
    else (l, [], [])

/-- Embeds the avg_volume_db command block of the main loop. -/
def speakerStep (l : Ledger) (avg_volume_db : Option ℚ) (now : ℚ) (ok : Bool) :
    Ledger × List (String × String) × List (String × String) :=
  match avg_volume_db with
  | none => (l, [], [])
  | some a =>
    if a > VOLUME_HIGH_DB then emitCmd l MQTT_TOPIC_SPEAKER "DOWN" now ok
    else if a < VOLUME_LOW_DB then emitCmd l MQTT_TOPIC_SPEAKER "UP" now ok
    else (l, [], [])

/-- Embeds one iteration of the main loop of app/main.py: read brightness
(push and average only on success, otherwise the average for the tick is
None), read volume the same way, build the status line, then run the two
command blocks in order, threading the throttle ledger. -/
def tick (st : LoopState) (inp : TickInput) : TickResult :=
  let bh := match inp.brightRead with
    | some b => pushHist st.brightness_history b
    | none => st.brightness_history
  let avgB := match inp.brightRead with
    | some b => moving_average (pushHist st.brightness_history b)
    | none => none
  let vh := match inp.volRead with
    | some v => pushHist st.volume_history v
    | none => st.volume_history
  let avgV := match inp.volRead with
    | some v => moving_average (pushHist st.volume_history v)
    | none => none
  let msg := statusLine inp.timestamp inp.brightRead avgB inp.volRead avgV
    inp.rssiVal inp.rssiTs
  let lres := lightStep st.last_cmd_time avgB inp.now (inp.pubOk MQTT_TOPIC_LIGHT)
  let sres := speakerStep lres.1 avgV inp.now (inp.pubOk MQTT_TOPIC_SPEAKER)
  ⟨⟨bh, vh, sres.1⟩, avgB, avgV, msg, lres.2.1 ++ sres.2.1, lres.2.2 ++ sres.2.2⟩

theorem speakerStep_no_light (l : Ledger) (a : Option ℚ) (now : ℚ) (ok : Bool) :
    ((speakerStep l a now ok).2.1.filter (fun c => c.1 == MQTT_TOPIC_LIGHT)) = [] := by
  cases a with
  | none => rfl
  | some a =>
    unfold speakerStep emitCmd
    dsimp only
    split_ifs <;>
      simp [List.filter, show (MQTT_TOPIC_SPEAKER == MQTT_TOPIC_LIGHT) = false by decide]

theorem lightStep_no_speaker (l : Ledger) (a : Option ℚ) (now : ℚ) (ok : Bool) :
    ((lightStep l a now ok).2.1.filter (fun c => c.1 == MQTT_TOPIC_SPEAKER)) = [] := by
  cases a with
  | none => rfl
  | some a =>
    unfold lightStep emitCmd
    dsimp only
    split_ifs <;>
      simp [List.filter, show (MQTT_TOPIC_LIGHT == MQTT_TOPIC_SPEAKER) = false by decide]

/-- C6: a tick in which a sensor read raises leaves that history untouched,
treats that smoothed value as unavailable, calls maybe_publish for no command
on that topic, and processes the other signal exactly as a function of its
own inputs (here shown by equating the cmds of the tick with the cmds of the
other command block alone, run on the untouched ledger). -/
theorem C6_sensor_failure_isolation (st : LoopState) (inp : TickInput) :
    (inp.brightRead = none →
      (tick st inp).state.brightness_history = st.brightness_history
      ∧ (tick st inp).avg_brightness = none
      ∧ ((tick st inp).cmds.filter (fun c => c.1 == MQTT_TOPIC_LIGHT)) = []
      ∧ (tick st inp).state.volume_history
          = (match inp.volRead with
             | some v => pushHist st.volume_history v
             | none => st.volume_history)
      ∧ (tick st inp).cmds
          = (speakerStep st.last_cmd_time (tick st inp).avg_volume_db inp.now
              (inp.pubOk MQTT_TOPIC_SPEAKER)).2.1)
    ∧ (inp.volRead = none →
      (tick st inp).state.volume_history = st.volume_history
      ∧ (tick st inp).avg_volume_db = none
      ∧ ((tick st inp).cmds.filter (fun c => c.1 == MQTT_TOPIC_SPEAKER)) = []
      ∧ (tick st inp).state.brightness_history
          = (match inp.brightRead with
             | some b => pushHist st.brightness_history b
             | none => st.brightness_history)
      ∧ (tick st inp).cmds
          = (lightStep st.last_cmd_time (tick st inp).avg_brightness inp.now
              (inp.pubOk MQTT_TOPIC_LIGHT)).2.1) := by
  constructor
  · intro hb
    refine ⟨?_, ?_, ?_, ?_, ?_⟩
    · simp [tick, hb]
    · simp [tick, hb]
    · simp only [tick, hb, lightStep]
      rw [List.nil_append]
      exact speakerStep_no_light _ _ _ _
    · simp [tick, hb]
    · simp only [tick, hb, lightStep]
      rw [List.nil_append]
  · intro hv
    refine ⟨?_, ?_, ?_, ?_, ?_⟩
    · simp [tick, hv]
    · simp [tick, hv]
    · simp only [tick, hv, speakerStep]
      rw [List.append_nil]
      exact lightStep_no_speaker _ _ _ _
    · simp [tick, hv]
    · simp only [tick, hv, speakerStep]
      rw [List.append_nil]

/-- A concrete loop state for the witnesses: fresh histories and ledger. -/
def tickSt0 : LoopState := ⟨[], [], emptyLedger⟩

/-- A concrete tick input whose brightness read failed. -/
def tickInp0 : TickInput := ⟨none, some (-30), none, none, "T", 1000, fun _ => true⟩

/-- A concrete tick input with both sensor reads failed and no RSSI. -/
def tickInpFail : TickInput := ⟨none, none, none, none, "T", 1000, fun _ => true⟩

/-- Witness for C6 at a tick whose brightness read failed while the volume
read returned -30. -/
theorem C6_sensor_failure_isolation_witness :
    (tick tickSt0 tickInp0).state.brightness_history = tickSt0.brightness_history
    ∧ (tick tickSt0 tickInp0).avg_brightness = none
    ∧ ((tick tickSt0 tickInp0).cmds.filter (fun c => c.1 == MQTT_TOPIC_LIGHT)) = []
    ∧ (tick tickSt0 tickInp0).state.volume_history = pushHist tickSt0.volume_history (-30) := by
  have h := (C6_sensor_failure_isolation tickSt0 tickInp0).1 rfl
  exact ⟨h.1, h.2.1, h.2.2.1, h.2.2.2.1⟩

/-- C7 fails as stated: on a tick whose sensor reads both failed, the status
line renders the raw slots as nan (the .1f formatting of float nan), not as
the placeholder N/A; the claim would demand the second line below. -/
theorem C7_counterexample :
    (tick tickSt0 tickInpFail).msg
      = "T | Brightness: current=nan avg=N/A | Volume: current=nan dB avg=N/A | RSSI: N/A (ts=N/A)"
    ∧ (tick tickSt0 tickInpFail).msg
      ≠ "T | Brightness: current=N/A avg=N/A | Volume: current=N/A dB avg=N/A | RSSI: N/A (ts=N/A)" := by
  constructor
  · rfl
  · decide

/-- C7 amended: the status line of every tick carries the raw and smoothed
values of both signals and the RSSI snapshot, with N/A substituted for an
unavailable smoothed value and for the absent RSSI fields, while a raw
reading whose acquisition failed is rendered as nan. -/
theorem C7_status_line (st : LoopState) (inp : TickInput) :
    (tick st inp).msg
      = inp.timestamp
        ++ " | Brightness: current=" ++ (match inp.brightRead with
            | none => "nan"
            | some b => fmt1 b)
        ++ " avg=" ++ (match (tick st inp).avg_brightness with
            | none => "N/A"
            | some a => fmt1 a)
        ++ " | Volume: current=" ++ (match inp.volRead with
            | none => "nan"
            | some v => fmt1 v)
        ++ " dB avg=" ++ (match (tick st inp).avg_volume_db with
            | none => "N/A"
            | some a => fmt1 a)
        ++ " | RSSI: " ++ (match inp.rssiVal with
            | none => "N/A"
            | some q => fmt1 q ++ " dBm")
        ++ " (ts=" ++ (match inp.rssiTs with
            | none => "N/A"
            | some ts => ts) ++ ")" := by
  simp only [tick, statusLine]
  cases inp.brightRead <;> cases inp.volRead <;> cases inp.rssiVal <;>
    cases inp.rssiTs <;> rfl

end SmartClassroom
